import Mathlib

/-!
Shallow embedding of the LLM-Mood-Tuner affective engine.

Text is modelled as `List Char`; Python floats are modelled as exact
rationals (`ℚ`); `datetime.now()` timestamps are threaded as explicit
rational parameters where a claim needs them and omitted from records
where no claim mentions them.  Python dictionaries holding engine state
are modelled as Lean structures with one field per key; `dict.get` with
a default becomes `Option.getD`.
-/

namespace MoodTuner

/-- Python `str.lower()` on a character list. -/
def lowerL (l : List Char) : List Char := l.map Char.toLower

/-- Does the first list occur at the head of the second? -/
def startsList : List Char → List Char → Bool
  | [], _ => true
  | _ :: _, [] => false
  | a :: ta, b :: tb => a == b && startsList ta tb

/-- Contiguous-substring containment: the semantics of Python `needle in hay`
for strings. -/
def containsSub (needle : List Char) : List Char → Bool
  | [] => needle.isEmpty
  | c :: rest => startsList needle (c :: rest) || containsSub needle rest

/-- Accumulator-based whitespace splitter implementing Python `str.split()`
with no separator argument: maximal runs of non-whitespace characters. -/
def wordsAux : List Char → List Char → List (List Char)
  | acc, [] => if acc.isEmpty then [] else [acc.reverse]
  | acc, c :: cs =>
      if c.isWhitespace then
        (if acc.isEmpty then wordsAux [] cs else acc.reverse :: wordsAux [] cs)
      else wordsAux (c :: acc) cs

/-- Python `text.split()`. -/
def splitWs (l : List Char) : List (List Char) := wordsAux [] l

/-- Number of whitespace-separated words in a text. -/
def nWords (l : List Char) : Nat := (splitWs l).length

/-- Python `' '.join(words)`. -/
def joinSp : List (List Char) → List Char
  | [] => []
  | [w] => w
  | w :: x :: rest => w ++ ' ' :: joinSp (x :: rest)

/-- Python `l[-n:]`: the most recent `n` elements of a history list. -/
def lastN (n : Nat) (l : List α) : List α := l.drop (l.length - n)

/-- Helper for `rfindC`: highest index of `c` at or after position `i`. -/
def rfindFrom (c : Char) : List Char → Int → Int
  | [], _ => -1
  | d :: rest, i =>
      let r := rfindFrom c rest (i + 1)
      if 0 ≤ r then r else if d == c then i else -1

/-- Python `text.rfind(c)`: highest index of `c`, or -1 when absent. -/
def rfindC (c : Char) (l : List Char) : Int := rfindFrom c l 0

/-! ## Feature Extractor (engines/linguistic.py, LinguisticEngine.parse_user_message) -/

/-- The emotional-content keyword lexicon of `parse_user_message`. -/
def emotional_indicators : List (List Char) :=
  ["love".data, "hate".data, "amazing".data, "terrible".data, "excited".data,
   "upset".data, "frustrated".data, "happy".data, "sad".data]

/-- The first-person / personal-sharing keyword lexicon of
`parse_user_message`. -/
def personal_indicators : List (List Char) :=
  ["i feel".data, "i think".data, "my".data, "me".data, "personally".data]

/-- The `parsed` dictionary produced by `parse_user_message`. -/
structure ParsedMessage where
  raw_message : List Char
  length : Nat
  word_count : Nat
  has_question : Bool
  exclamation_count : Nat
  uppercase_ratio : ℚ
  estimated_engagement : ℚ
deriving DecidableEq

/-- The engagement score of `parse_user_message` through the length band,
interaction-signal and emotional-content adjustments, i.e. everything
before the personal-sharing indicator loop. -/
def engagement_score_base (message : List Char) : ℚ :=
  let word_count := nWords message
  let has_question := containsSub "?".data message
  let exclamation_count := message.count '!'
  let uppercase_ratio : ℚ :=
    ((message.countP (fun c => c.isUpper)) : ℚ) / (max 1 message.length : ℚ)
  let s0 : ℚ := 0.5
  let s1 := if 15 < word_count then s0 + 0.25
            else if 8 < word_count then s0 + 0.15
            else if word_count < 2 then s0 - 0.4
            else if word_count < 4 then s0 - 0.2
            else s0
  let s2 := if has_question then s1 + 0.2 else s1
  let s3 := if 0 < exclamation_count then s2 + 0.15 else s2
  let s4 := if 2 < exclamation_count then s3 + 0.1 else s3
  let s5 := if uppercase_ratio > 0.3 then s4 + 0.15 else s4
  let message_lower := lowerL message
  if emotional_indicators.any (fun ind => containsSub ind message_lower)
  then s5 + 0.1 else s5

/-- `LinguisticEngine.parse_user_message`.  Note that the personal-sharing
loop in the source has no `break`, so it adds 0.05 once per matching
indicator. -/
def parse_user_message (message : List Char) : ParsedMessage :=
  let message_lower := lowerL message
  let score :=
    personal_indicators.foldl
      (fun acc ind => if containsSub ind message_lower then acc + 0.05 else acc)
      (engagement_score_base message)
  { raw_message := message
    length := message.length
    word_count := nWords message
    has_question := containsSub "?".data message
    exclamation_count := message.count '!'
    uppercase_ratio :=
      ((message.countP (fun c => c.isUpper)) : ℚ) / (max 1 message.length : ℚ)
    estimated_engagement := max 0.1 (min 0.9 score) }

/-- Modelled from the spec sentence "presence of any first-person/personal-
sharing keyword (+0.05, at most once)": the engagement estimate that would
result if the personal-sharing bonus were applied at most once per message.
Used only to compare the source behaviour against the spec's words. -/
def estimated_engagement_single_bonus (message : List Char) : ℚ :=
  let message_lower := lowerL message
  let score :=
    if personal_indicators.any (fun ind => containsSub ind message_lower)
    then engagement_score_base message + 0.05
    else engagement_score_base message
  max 0.1 (min 0.9 score)

/-! ## Response Normalizer (engines/linguistic.py, process_llm_response) -/

/-- The word-limit enforcement of `process_llm_response`: texts of more than
60 words are cut to the first 55 words, then either clipped at the last
sentence-ending punctuation mark when it lies in the last 20% of the
truncation, or extended with an ellipsis. -/
def enforceLimit (t : List Char) : List Char :=
  let ws := splitWs t
  if 60 < ws.length then
    let truncated := joinSp (ws.take 55)
    let best : Int :=
      max (rfindC '.' truncated) (max (rfindC '?' truncated) (rfindC '!' truncated))
    if 4 * (truncated.length : Int) < 5 * best then
      truncated.take (best + 1).toNat
    else
      truncated ++ ('.' :: '.' :: '.' :: [])
  else t

/-- The net effect of the `if response_text:` guard plus `enforceLimit` on a
present `response_text` value. -/
def normalizeText (t : List Char) : List Char :=
  if t.isEmpty then t else enforceLimit t

/-- The `learning_feedback` sub-dictionary of a reply. -/
structure LearningFeedback where
  response_quality : ℚ
  user_satisfaction_predicted : ℚ
deriving DecidableEq

/-- A structured backend reply; `none` models an absent dictionary key. -/
structure Reply where
  response_text : Option (List Char)
  engagement_analysis : Option ℚ
  boredom_detected : Option Bool
  topic_shift_suggestion : Option (List Char)
  mood_assessment : Option (List Char)
  initiative_taken : Option Bool
  learning_feedback : Option LearningFeedback
deriving DecidableEq

/-- Default `response_text` from `_get_default_value`. -/
def default_response_text : List Char := "Tell me more about that.".data

/-- `LinguisticEngine.process_llm_response` on an already-structured reply
(the `isinstance(raw_response, str)` branch and its JSON extraction concern
raw-text inputs only and are not modelled).  The required-fields loop fills
only `response_text`, `engagement_analysis` and `boredom_detected`;
`engagement_analysis` is then clamped to [0.1, 0.9] and a default
`learning_feedback` is synthesized when absent. -/
def process_llm_response (r : Reply) : Reply :=
  let rtext : Option (List Char) :=
    match r.response_text with
    | some t => some (normalizeText t)
    | none => some default_response_text
  { response_text := rtext
    engagement_analysis := some (max 0.1 (min 0.9 (r.engagement_analysis.getD 0.5)))
    boredom_detected := some (r.boredom_detected.getD false)
    topic_shift_suggestion := r.topic_shift_suggestion
    mood_assessment := r.mood_assessment
    initiative_taken := r.initiative_taken
    learning_feedback := some (r.learning_feedback.getD ⟨0.5, 0.5⟩) }

/-! ## Mood Engine (engines/emotional.py, EmotionalEngine) -/

/-- The `current_mood` dictionary (its `last_updated` wall-clock timestamp,
unused by every claim, is omitted). -/
structure MoodState where
  primary_emotion : String
  energy_level : ℚ
  engagement_level : ℚ
  curiosity_level : ℚ
deriving DecidableEq

/-- The `trigger_info` dictionary of `_detect_emotional_triggers`. -/
structure TriggerInfo where
  trigger_detected : Bool
  primary_trigger : Option String
  intensity : ℚ
deriving DecidableEq

/-- The `emotion_triggers` lexicon, in the insertion (and hence scan)
order of the source dictionary. -/
def emotion_triggers : List (String × List (List Char)) :=
  [("upset_keywords",
    ["upset".data, "angry".data, "frustrated".data, "mad".data, "annoyed".data,
     "furious".data, "pissed".data]),
   ("sad_keywords",
    ["sad".data, "depressed".data, "down".data, "crying".data,
     "heartbroken".data, "devastated".data]),
   ("excited_keywords",
    ["excited".data, "thrilled".data, "amazing".data, "awesome".data,
     "fantastic".data, "incredible".data]),
   ("bored_keywords",
    ["boring".data, "bored".data, "tired".data, "whatever".data, "meh".data,
     "uninteresting".data]),
   ("confused_keywords",
    ["confused".data, "lost".data, "unclear".data, "what".data, "huh".data,
     "understand".data]),
   ("thoughtful_keywords",
    ["think".data, "consider".data, "reflect".data, "ponder".data,
     "contemplate".data, "wonder".data]),
   ("calm_keywords",
    ["peaceful".data, "calm".data, "relaxed".data, "serene".data,
     "quiet".data, "still".data])]

/-- Keywords given intensity 0.9 by `_detect_emotional_triggers`. -/
def strong_keywords : List (List Char) :=
  ["furious".data, "devastated".data, "incredible".data, "amazing".data]

/-- Keywords given intensity 0.4 by `_detect_emotional_triggers`. -/
def gentle_keywords : List (List Char) :=
  ["think".data, "consider".data, "calm".data, "peaceful".data]

/-- Intensity tier assigned to a matched keyword. -/
def keywordIntensity (kw : List Char) : ℚ :=
  if strong_keywords.contains kw then 0.9
  else if gentle_keywords.contains kw then 0.4
  else 0.7

/-- First keyword of a category found in the message text. -/
def findTriggerKw (text : List Char) : List (List Char) → Option (List Char)
  | [] => none
  | kw :: rest => if containsSub kw text then some kw else findTriggerKw text rest

/-- Scan the categories in order; the first category with a matching keyword
wins (the source breaks out of both loops). -/
def detectTriggersAux (text : List Char) :
    List (String × List (List Char)) → TriggerInfo
  | [] => ⟨false, none, 0⟩
  | (name, kws) :: rest =>
      match findTriggerKw text kws with
      | some kw => ⟨true, some name, keywordIntensity kw⟩
      | none => detectTriggersAux text rest

/-- `EmotionalEngine._detect_emotional_triggers`. -/
def detect_emotional_triggers (text : List Char) : TriggerInfo :=
  detectTriggersAux text emotion_triggers

/-- `EmotionalEngine._apply_emotional_shift`: the category-specific override.
The source tests `'upset' in trigger_type` and so on against the category
name string. -/
def apply_emotional_shift (m : MoodState) (trigger_type : List Char)
    (intensity : ℚ) : MoodState :=
  if containsSub "upset".data trigger_type then
    { m with primary_emotion := "concerned"
             engagement_level := min 0.9 (0.8 + intensity * 0.1)
             energy_level := min 0.9 (0.7 + intensity * 0.2)
             curiosity_level := min 0.9 (0.8 + intensity * 0.1) }
  else if containsSub "sad".data trigger_type then
    { m with primary_emotion := "empathetic"
             engagement_level := max 0.5 (0.7 - intensity * 0.1)
             energy_level := max 0.2 (0.4 - intensity * 0.1) }
  else if containsSub "excited".data trigger_type then
    { m with primary_emotion := "excited"
             engagement_level := min 0.9 (0.8 + intensity * 0.1)
             energy_level := min 0.9 (0.8 + intensity * 0.1) }
  else if containsSub "bored".data trigger_type then
    { m with primary_emotion := "bored"
             engagement_level := max 0.1 0.2
             energy_level := max 0.1 0.3 }
  else if containsSub "confused".data trigger_type then
    { m with primary_emotion := "helpful"
             engagement_level := min 0.8 (0.7 + intensity * 0.1)
             curiosity_level := min 0.9 (0.8 + intensity * 0.1) }
  else if containsSub "thoughtful".data trigger_type then
    { m with primary_emotion := "contemplative"
             engagement_level := min 0.7 (0.6 + intensity * 0.1)
             energy_level := max 0.2 (0.4 - intensity * 0.1)
             curiosity_level := min 0.8 (0.7 + intensity * 0.1) }
  else if containsSub "calm".data trigger_type then
    { m with primary_emotion := "reflective"
             engagement_level := min 0.6 (0.5 + intensity * 0.1)
             energy_level := max 0.2 0.3
             curiosity_level := min 0.6 (0.5 + intensity * 0.1) }
  else m

/-- The ordered (engagement, energy) band table of `update_mood_from_input`
("Map emotions based on both engagement AND energy"). -/
def emotionFromLevels (engagement energy : ℚ) : String :=
  if engagement > 0.8 ∧ energy > 0.7 then "excited"
  else if engagement > 0.7 ∧ energy > 0.5 then "engaged"
  else if engagement > 0.6 ∧ energy < 0.4 then "contemplative"
  else if engagement > 0.5 ∧ energy < 0.3 then "reflective"
  else if engagement > 0.4 then "interested"
  else if engagement > 0.3 ∧ energy < 0.4 then "thoughtful"
  else if engagement > 0.2 then "neutral"
  else if energy < 0.3 then "tired"
  else "bored"

/-- One `mood_history` record (wall-clock timestamp omitted).  The source
stores `emotional_impact.get('primary_trigger', 'normal_input')`; since the
`primary_trigger` key is always present, this is just the stored option. -/
structure MoodHistoryEntry where
  mood_state : MoodState
  trigger : Option String
  engagement_score : ℚ
  amplification_applied : Bool
deriving DecidableEq

/-- One `engagement_trend` record of `learn_from_feedback` (timestamp
omitted). -/
structure TrendEntry where
  engagement : ℚ
  feedback : ℚ
deriving DecidableEq

/-- The mutable state of `EmotionalEngine`. -/
structure EmotionalEngine where
  current_mood : MoodState
  mood_history : List MoodHistoryEntry
  engagement_trend : List TrendEntry
deriving DecidableEq

/-- `EmotionalEngine.__init__`. -/
def EmotionalEngine.init : EmotionalEngine :=
  ⟨⟨"neutral", 0.5, 0.5, 0.7⟩, [], []⟩

/-- `EmotionalEngine.update_mood_from_input`. -/
def update_mood_from_input (s : EmotionalEngine) (pm : ParsedMessage) :
    EmotionalEngine :=
  let message_text := lowerL pm.raw_message
  let message_engagement := pm.estimated_engagement
  let impact := detect_emotional_triggers message_text
  let mood1 :=
    if impact.trigger_detected then
      apply_emotional_shift s.current_mood
        (impact.primary_trigger.getD "").data impact.intensity
    else
      let current := s.current_mood.engagement_level
      let new_engagement := 0.5 * current + 0.5 * message_engagement
      let change := new_engagement - current
      let amplified_change := change * 2.0
      let final_engagement := max 0.1 (min 0.9 (current + amplified_change))
      { s.current_mood with engagement_level := final_engagement }
  let energy1 :=
    if message_engagement > 0.7 then min 0.9 (mood1.energy_level + 0.15)
    else if message_engagement < 0.3 then max 0.1 (mood1.energy_level - 0.15)
    else if message_engagement < 0.4 then max 0.2 (mood1.energy_level - 0.05)
    else mood1.energy_level
  let mood2 := { mood1 with energy_level := energy1 }
  let mood3 := { mood2 with
    primary_emotion := emotionFromLevels mood2.engagement_level mood2.energy_level }
  let mood4 := { mood3 with
    curiosity_level :=
      if pm.has_question then min 0.9 (mood3.curiosity_level + 0.1)
      else max 0.3 (mood3.curiosity_level - 0.02) }
  let hist1 := s.mood_history ++
    [⟨mood4, impact.primary_trigger, message_engagement, impact.trigger_detected⟩]
  let hist2 := if 50 < hist1.length then lastN 25 hist1 else hist1
  { current_mood := mood4
    mood_history := hist2
    engagement_trend := s.engagement_trend }

/-- `EmotionalEngine.detect_conversation_stagnation`. -/
def detect_conversation_stagnation (s : EmotionalEngine) : Bool :=
  if s.engagement_trend.length < 3 then false
  else
    let recent := (lastN 3 s.engagement_trend).map TrendEntry.engagement
    let avg_recent := recent.sum / (recent.length : ℚ)
    if avg_recent < 0.4 then true
    else if 3 ≤ recent.length ∧
        recent.getD 2 0 < recent.getD 1 0 ∧ recent.getD 1 0 < recent.getD 0 0
      then true
    else if s.current_mood.engagement_level < 0.3 then true
    else false

/-- Fold `update_mood_from_input` over a sequence of parsed messages. -/
def updateSeq (s : EmotionalEngine) (pms : List ParsedMessage) : EmotionalEngine :=
  pms.foldl update_mood_from_input s

/-! ## Behavior Engine (engines/behavioral.py, BehavioralEngine) -/

/-- One `initiative_history` record (timestamp omitted). -/
structure InitiativeRecord where
  initiative_taken : Bool
  engagement_result : ℚ
  success : Bool
  strong_success : Bool
deriving DecidableEq

/-- The record appended by `learn_from_outcome`. -/
def mkInitiativeRecord (initiative_taken : Bool) (engagement_result : ℚ) :
    InitiativeRecord :=
  ⟨initiative_taken, engagement_result,
   decide (engagement_result > 0.6), decide (engagement_result > 0.8)⟩

/-- The `behavioral_params` dictionary. -/
structure BehavioralParams where
  initiative_threshold : ℚ
  topic_change_frequency : ℚ
  curiosity_drive : ℚ
  empathy_response : ℚ
  boredom_tolerance : ℚ
deriving DecidableEq

/-- One finalized `topic_performance` entry (its `last_used` timestamp
omitted). -/
structure TopicPerf where
  messages : Nat
  duration_minutes : ℚ
  engagement_per_message : ℚ
  success_score : ℚ
deriving DecidableEq

/-- The mutable state of `BehavioralEngine` (`conversation_topics` and the
static `initiative_suggestions` table are never read by any modelled
operation and are omitted). -/
structure BehavioralEngine where
  topic_performance : List (String × TopicPerf)
  initiative_history : List InitiativeRecord
  current_topic : Option String
  topic_start_time : ℚ
  messages_on_topic : Nat
  behavioral_params : BehavioralParams
deriving DecidableEq

/-- `BehavioralEngine.__init__` (construction time taken as 0). -/
def BehavioralEngine.init : BehavioralEngine :=
  ⟨[], [], none, 0, 0, ⟨0.35, 4, 0.7, 0.6, 0.4⟩⟩

/-- The last-5 taken-initiative window of `learn_from_outcome`. -/
def recent_taken (hist : List InitiativeRecord) : List InitiativeRecord :=
  (lastN 5 hist).filter (fun h => h.initiative_taken)

/-- The success rate computed by `learn_from_outcome` over the last-5
taken-initiative window. -/
def success_rate (hist : List InitiativeRecord) : ℚ :=
  (((recent_taken hist).filter (fun h => h.success)).length : ℚ) /
    ((recent_taken hist).length : ℚ)

/-- The parameter-adaptation step of `learn_from_outcome`, applied to the
post-trim history. -/
def adapt_params (hist : List InitiativeRecord) (p : BehavioralParams) :
    BehavioralParams :=
  if 4 ≤ hist.length then
    if (recent_taken hist).length ≠ 0 then
      if success_rate hist > 0.8 then
        { p with initiative_threshold := min 0.6 (p.initiative_threshold + 0.05) }
      else if success_rate hist < 0.3 then
        { p with initiative_threshold := max 0.2 (p.initiative_threshold - 0.05) }
      else p
    else p
  else p

/-- `BehavioralEngine.learn_from_outcome`. -/
def learn_from_outcome (s : BehavioralEngine) (initiative_taken : Bool)
    (engagement_result : ℚ) : BehavioralEngine :=
  let hist1 := s.initiative_history ++
    [mkInitiativeRecord initiative_taken engagement_result]
  let hist2 := if 20 < hist1.length then lastN 10 hist1 else hist1
  { s with initiative_history := hist2
           behavioral_params := adapt_params hist2 s.behavioral_params }

/-- Fold `learn_from_outcome` over a sequence of outcome observations. -/
def learnSeq (s : BehavioralEngine) (xs : List (Bool × ℚ)) : BehavioralEngine :=
  xs.foldl (fun st x => learn_from_outcome st x.1 x.2) s

/-- Python dictionary assignment `self.topic_performance[key] = value` on an
association list. -/
def setPerf : List (String × TopicPerf) → String → TopicPerf →
    List (String × TopicPerf)
  | [], k, v => [(k, v)]
  | (k0, v0) :: rest, k, v =>
      if k0 = k then (k, v) :: rest else (k0, v0) :: setPerf rest k v

/-- The timestamp-derived default topic name; the exact strftime format
`topic_%H%M%S` is abstracted to a rendering of the clock value. -/
def defaultTopicName (now : ℚ) : String := "topic_" ++ toString now.num

/-- `BehavioralEngine.update_topic_tracking`; `now` models `datetime.now()`
in seconds, and durations are in minutes as in the source. -/
def update_topic_tracking (s : BehavioralEngine) (now : ℚ)
    (new_topic_detected : Bool) (topic_name : Option String) :
    BehavioralEngine :=
  if new_topic_detected then
    let s1 :=
      match s.current_topic with
      | some t =>
          let duration := (now - s.topic_start_time) / 60
          let perf : TopicPerf :=
            ⟨s.messages_on_topic, duration,
             (s.messages_on_topic : ℚ) / max 1 duration,
             max 0 (min 1 (((s.messages_on_topic : ℚ) - 2) / 5))⟩
          { s with topic_performance := setPerf s.topic_performance t perf }
      | none => s
    { s1 with current_topic := some (topic_name.getD (defaultTopicName now))
              topic_start_time := now
              messages_on_topic := 0 }
  else s

/-! ## Claim theorems -/

/-- C1, counterexample.  The input "i am sad today" fires the sad trigger
category, whose mapped emotion is "empathetic", yet the mood recorded by
`update_mood_from_input` ends the turn with primary_emotion
"contemplative": the band-table re-derivation runs even on trigger turns
and overwrites the category's mapped emotion. -/
theorem c1_counterexample :
    (detect_emotional_triggers
        (lowerL (parse_user_message "i am sad today".data).raw_message)).trigger_detected
      = true ∧
    (detect_emotional_triggers
        (lowerL (parse_user_message "i am sad today".data).raw_message)).primary_trigger
      = some "sad_keywords" ∧
    (update_mood_from_input EmotionalEngine.init
        (parse_user_message "i am sad today".data)).current_mood.primary_emotion
      = "contemplative" ∧
    (update_mood_from_input EmotionalEngine.init
        (parse_user_message "i am sad today".data)).current_mood.primary_emotion
      ≠ "empathetic" := by
  have hest : (parse_user_message "i am sad today".data).estimated_engagement = 0.6 := by
    simp +decide [parse_user_message, engagement_score_base, personal_indicators,
      emotional_indicators]
    norm_num
  have hdet : detect_emotional_triggers (lowerL "i am sad today".data) =
      ⟨true, some "sad_keywords", 0.7⟩ := rfl
  have hprim : (update_mood_from_input EmotionalEngine.init
      (parse_user_message "i am sad today".data)).current_mood.primary_emotion
      = "contemplative" := by
    simp +decide [update_mood_from_input, EmotionalEngine.init, hest, hdet,
      apply_emotional_shift, emotionFromLevels, parse_user_message,
      engagement_score_base, personal_indicators, emotional_indicators]
    norm_num
  exact ⟨rfl, rfl, hprim, by rw [hprim]; decide⟩

/-- C1, amended.  On every turn — trigger or not — `update_mood_from_input`
re-derives `primary_emotion` via the ordered (engagement, energy) band
table from the resulting levels, so on trigger turns the recorded emotion
is the band-table value for the post-override engagement and energy, not
necessarily the category's mapped emotion. -/
theorem c1_amended_band_table_every_turn (s : EmotionalEngine) (pm : ParsedMessage) :
    (update_mood_from_input s pm).current_mood.primary_emotion =
      emotionFromLevels (update_mood_from_input s pm).current_mood.engagement_level
        (update_mood_from_input s pm).current_mood.energy_level := rfl

/-- C2.  From the initial neutral mood, the input "whatever, this is
boring" fires the "bored" trigger category and leaves primary_emotion =
"bored", engagement_level = 0.2 and energy_level = 0.3. -/
theorem c2_bored_scenario :
    (detect_emotional_triggers
        (lowerL (parse_user_message "whatever, this is boring".data).raw_message)).primary_trigger
      = some "bored_keywords" ∧
    (update_mood_from_input EmotionalEngine.init
        (parse_user_message "whatever, this is boring".data)).current_mood.primary_emotion
      = "bored" ∧
    (update_mood_from_input EmotionalEngine.init
        (parse_user_message "whatever, this is boring".data)).current_mood.engagement_level
      = 0.2 ∧
    (update_mood_from_input EmotionalEngine.init
        (parse_user_message "whatever, this is boring".data)).current_mood.energy_level
      = 0.3 := by
  have hest : (parse_user_message "whatever, this is boring".data).estimated_engagement
      = 0.6 := by
    simp +decide [parse_user_message, engagement_score_base, personal_indicators,
      emotional_indicators]
    norm_num
  refine ⟨rfl, ?_, ?_, ?_⟩ <;>
  · simp +decide [update_mood_from_input, EmotionalEngine.init, hest,
      apply_emotional_shift, emotionFromLevels, parse_user_message,
      engagement_score_base, personal_indicators, emotional_indicators]
    norm_num

/-- C3, counterexample.  A reachable Mood Engine state (one bored-trigger
turn from the initial state) has engagement_level 0.2 < 0.3 yet
`detect_conversation_stagnation` returns false, because fewer than 3
engagement-trend samples have been recorded. -/
theorem c3_counterexample :
    (update_mood_from_input EmotionalEngine.init
        (parse_user_message "whatever, this is boring".data)).current_mood.engagement_level
      < 0.3 ∧
    (update_mood_from_input EmotionalEngine.init
        (parse_user_message "whatever, this is boring".data)).engagement_trend = [] ∧
    detect_conversation_stagnation
      (update_mood_from_input EmotionalEngine.init
        (parse_user_message "whatever, this is boring".data)) = false := by
  have hest : (parse_user_message "whatever, this is boring".data).estimated_engagement
      = 0.6 := by
    simp +decide [parse_user_message, engagement_score_base, personal_indicators,
      emotional_indicators]
    norm_num
  refine ⟨?_, rfl, rfl⟩
  simp +decide [update_mood_from_input, EmotionalEngine.init, hest,
    apply_emotional_shift, emotionFromLevels, parse_user_message,
    engagement_score_base, personal_indicators, emotional_indicators]
  norm_num

/-- C3, amended.  `detect_conversation_stagnation` returns true exactly
when at least 3 engagement-trend samples have been recorded and, in
addition, the mean of the last 3 samples is below 0.4, or the last 3
samples are strictly decreasing, or the current engagement_level is below
0.3; with fewer than 3 samples it always returns false, even when the
current engagement_level is below 0.3. -/
theorem c3_amended_stagnation_characterization (s : EmotionalEngine) :
    detect_conversation_stagnation s = true ↔
      3 ≤ s.engagement_trend.length ∧
        (((lastN 3 s.engagement_trend).map TrendEntry.engagement).sum /
            ((((lastN 3 s.engagement_trend).map TrendEntry.engagement).length : ℚ)) < 0.4 ∨
         (((lastN 3 s.engagement_trend).map TrendEntry.engagement).getD 2 0 <
            ((lastN 3 s.engagement_trend).map TrendEntry.engagement).getD 1 0 ∧
          ((lastN 3 s.engagement_trend).map TrendEntry.engagement).getD 1 0 <
            ((lastN 3 s.engagement_trend).map TrendEntry.engagement).getD 0 0) ∨
         s.current_mood.engagement_level < 0.3) := by
  unfold detect_conversation_stagnation
  by_cases h1 : s.engagement_trend.length < 3
  · simp [h1]
  · have h3 : 3 ≤ s.engagement_trend.length := by omega
    have hlen : ((lastN 3 s.engagement_trend).map TrendEntry.engagement).length = 3 := by
      simp [lastN]
      omega
    simp only [if_neg h1, hlen]
    split_ifs with h2 hdec heng <;> simp_all

/-- C4, counterexample.  The message "tell me about my day" contains both
"me" and "my"; `parse_user_message` adds the personal-sharing bonus twice
(estimated_engagement 0.6), while a single-application bonus as the claim
describes would give 0.55. -/
theorem c4_counterexample :
    (parse_user_message "tell me about my day".data).estimated_engagement = 0.6 ∧
    estimated_engagement_single_bonus "tell me about my day".data = 0.55 ∧
    (parse_user_message "tell me about my day".data).estimated_engagement ≠
      estimated_engagement_single_bonus "tell me about my day".data := by
  refine ⟨?_, ?_, ?_⟩ <;>
  · simp +decide [parse_user_message, estimated_engagement_single_bonus,
      engagement_score_base, personal_indicators, emotional_indicators]
    norm_num

/-- C4, amended.  The personal-sharing loop of `parse_user_message` has no
break, so the +0.05 bonus is added once per matching indicator: the
estimated engagement equals the base score plus 0.05 times the number of
matching personal-sharing indicators, clamped to [0.1, 0.9]. -/
theorem c4_amended_bonus_per_indicator (message : List Char) :
    (parse_user_message message).estimated_engagement =
      max 0.1 (min 0.9 (engagement_score_base message +
        0.05 * ((personal_indicators.countP
          (fun ind => containsSub ind (lowerL message))) : ℚ))) := by
  have key : ∀ (l : List (List Char)) (s : ℚ),
      l.foldl (fun acc ind =>
          if containsSub ind (lowerL message) then acc + 0.05 else acc) s =
        s + 0.05 * ((l.countP (fun ind => containsSub ind (lowerL message))) : ℚ) := by
    intro l
    induction l with
    | nil => intro s; simp
    | cons a t ih =>
        intro s
        by_cases h : containsSub a (lowerL message) = true <;>
          simp [List.foldl, List.countP_cons, h, ih] <;> ring
  unfold parse_user_message
  simp only [key]

/-- Helper for C6: one `learn_from_outcome` call keeps the initiative
threshold inside [0.2, 0.6]. -/
theorem threshold_step (s : BehavioralEngine) (tk : Bool) (r : ℚ)
    (h : 0.2 ≤ s.behavioral_params.initiative_threshold ∧
      s.behavioral_params.initiative_threshold ≤ 0.6) :
    0.2 ≤ (learn_from_outcome s tk r).behavioral_params.initiative_threshold ∧
      (learn_from_outcome s tk r).behavioral_params.initiative_threshold ≤ 0.6 := by
  obtain ⟨hlo, hhi⟩ := h
  unfold learn_from_outcome adapt_params
  dsimp only
  split_ifs
  all_goals constructor
  all_goals first
    | exact hlo
    | exact hhi
    | exact le_min (by norm_num) (by linarith)
    | exact min_le_of_left_le (by norm_num)
    | exact le_max_left _ _
    | exact max_le (by norm_num) (by linarith)

/-- C6.  Starting from the initial Behavior Engine state (threshold 0.35),
the initiative_threshold stays in the closed interval [0.2, 0.6] after any
sequence of `learn_from_outcome` calls, whatever the initiative flags and
engagement results. -/
theorem c6_threshold_invariant (xs : List (Bool × ℚ)) :
    0.2 ≤ (learnSeq BehavioralEngine.init xs).behavioral_params.initiative_threshold ∧
      (learnSeq BehavioralEngine.init xs).behavioral_params.initiative_threshold ≤ 0.6 := by
  have gen : ∀ (ys : List (Bool × ℚ)) (s : BehavioralEngine),
      (0.2 ≤ s.behavioral_params.initiative_threshold ∧
        s.behavioral_params.initiative_threshold ≤ 0.6) →
      0.2 ≤ (learnSeq s ys).behavioral_params.initiative_threshold ∧
        (learnSeq s ys).behavioral_params.initiative_threshold ≤ 0.6 := by
    intro ys
    induction ys with
    | nil => intro s h; exact h
    | cons x t ih =>
        intro s h
        exact ih (learn_from_outcome s x.1 x.2) (threshold_step s x.1 x.2 h)
  exact gen xs BehavioralEngine.init ⟨by norm_num [BehavioralEngine.init], by norm_num [BehavioralEngine.init]⟩

/-- Helper for C9: one mood update keeps the mood history within 50
entries. -/
theorem mood_history_step (s : EmotionalEngine) (pm : ParsedMessage)
    (h : s.mood_history.length ≤ 50) :
    (update_mood_from_input s pm).mood_history.length ≤ 50 := by
  unfold update_mood_from_input
  dsimp only
  split_ifs
  all_goals first
    | (simp only [lastN, List.length_drop]; omega)
    | omega

/-- Helper for C9: one `learn_from_outcome` call keeps the initiative
history within 20 entries. -/
theorem initiative_history_step (s : BehavioralEngine) (tk : Bool) (r : ℚ)
    (h : s.initiative_history.length ≤ 20) :
    (learn_from_outcome s tk r).initiative_history.length ≤ 20 := by
  unfold learn_from_outcome
  dsimp only
  split_ifs
  all_goals first
    | (simp only [lastN, List.length_drop]; omega)
    | omega

/-- C9.  After any number of Mood Engine updates the mood history holds at
most 50 entries, and after any number of `learn_from_outcome` calls the
initiative history holds at most 20 entries. -/
theorem c9_history_caps (pms : List ParsedMessage) (xs : List (Bool × ℚ)) :
    (updateSeq EmotionalEngine.init pms).mood_history.length ≤ 50 ∧
      (learnSeq BehavioralEngine.init xs).initiative_history.length ≤ 20 := by
  constructor
  · have gen : ∀ (qs : List ParsedMessage) (s : EmotionalEngine),
        s.mood_history.length ≤ 50 → (updateSeq s qs).mood_history.length ≤ 50 := by
      intro qs
      induction qs with
      | nil => intro s h; exact h
      | cons q t ih =>
          intro s h
          exact ih (update_mood_from_input s q) (mood_history_step s q h)
    exact gen pms EmotionalEngine.init (by simp [EmotionalEngine.init])
  · have gen : ∀ (ys : List (Bool × ℚ)) (s : BehavioralEngine),
        s.initiative_history.length ≤ 20 →
          (learnSeq s ys).initiative_history.length ≤ 20 := by
      intro ys
      induction ys with
      | nil => intro s h; exact h
      | cons x t ih =>
          intro s h
          exact ih (learn_from_outcome s x.1 x.2) (initiative_history_step s x.1 x.2 h)
    exact gen xs BehavioralEngine.init (by simp [BehavioralEngine.init])

/-- C10.  Calling `update_topic_tracking` with `new_topic_detected = false`
returns the Behavior Engine state unchanged, whatever the prior state, the
clock value and the topic-name argument. -/
theorem c10_no_new_topic_is_identity (s : BehavioralEngine) (now : ℚ)
    (topic_name : Option String) :
    update_topic_tracking s now false topic_name = s := rfl


theorem wordsAux_length_congr (l : List Char) :
    ∀ acc acc' : List Char, acc.isEmpty = acc'.isEmpty →
      (wordsAux acc l).length = (wordsAux acc' l).length := by
  induction l with
  | nil =>
      intro acc acc' h
      simp only [wordsAux, h]
      by_cases he : acc'.isEmpty <;> simp [he]
  | cons c cs ih =>
      intro acc acc' h
      by_cases hw : c.isWhitespace
      · by_cases he : acc.isEmpty
        · have he' : acc'.isEmpty = true := by rw [← h]; exact he
          simp [wordsAux, hw, he, he']
        · have he' : ¬ acc'.isEmpty = true := by rw [← h]; exact he
          simp [wordsAux, hw, he, he']
      · simp only [wordsAux, if_neg hw]
        exact ih (c :: acc) (c :: acc') rfl

theorem wordsAux_length_le_succ (l : List Char) :
    ∀ acc : List Char, (wordsAux acc l).length ≤ 1 + (wordsAux [] l).length := by
  induction l with
  | nil =>
      intro acc
      by_cases he : acc.isEmpty <;> simp [wordsAux, he]
  | cons c cs ih =>
      intro acc
      by_cases hw : c.isWhitespace
      · by_cases he : acc.isEmpty <;>
          simp [wordsAux, hw, he, List.length_cons] <;> omega
      · simp only [wordsAux, if_neg hw]
        have hc := wordsAux_length_congr cs (c :: acc) [c] rfl
        rw [hc]
        omega

theorem wordsAux_pos (l : List Char) :
    ∀ acc : List Char, acc.isEmpty = false → 1 ≤ (wordsAux acc l).length := by
  induction l with
  | nil => intro acc h; simp [wordsAux, h]
  | cons c cs ih =>
      intro acc h
      by_cases hw : c.isWhitespace
      · simp [wordsAux, hw, h]
      · simp only [wordsAux, if_neg hw]
        exact ih (c :: acc) rfl

theorem wordsAux_append_le (a : List Char) :
    ∀ (b acc : List Char),
      (wordsAux acc (a ++ b)).length ≤ (wordsAux acc a).length + (wordsAux [] b).length := by
  induction a with
  | nil =>
      intro b acc
      by_cases he : acc.isEmpty
      · simp only [List.nil_append, wordsAux, he, if_pos]
        rw [wordsAux_length_congr b acc [] (by simp_all)]
        simp
      · have h1 := wordsAux_length_le_succ b acc
        simp only [List.nil_append, wordsAux, if_neg he, List.length_singleton]
        omega
  | cons c cs ih =>
      intro b acc
      by_cases hw : c.isWhitespace
      · by_cases he : acc.isEmpty
        · simp only [List.cons_append, wordsAux, if_pos hw, if_pos he]
          exact ih b []
        · simp only [List.cons_append, wordsAux, if_pos hw, if_neg he, List.length_cons]
          have h1 := ih b []
          simp only [List.append_eq] at *
          omega
      · simp only [List.cons_append, wordsAux, if_neg hw]
        exact ih b (c :: acc)

theorem wordsAux_take_le (l : List Char) :
    ∀ (n : Nat) (acc : List Char),
      (wordsAux acc (l.take n)).length ≤ (wordsAux acc l).length := by
  induction l with
  | nil => intro n acc; simp
  | cons c cs ih =>
      intro n acc
      match n with
      | 0 =>
          rw [List.take_zero]
          by_cases he : acc.isEmpty
          · simp [wordsAux, he]
          · have hpos := wordsAux_pos (c :: cs) acc (by simpa using he)
            have hL : wordsAux acc ([] : List Char) = [acc.reverse] := by
              simp [wordsAux, he]
            rw [hL]
            simpa using hpos
      | Nat.succ m =>
          simp only [List.take_succ_cons]
          by_cases hw : c.isWhitespace
          · by_cases he : acc.isEmpty
            · simp only [wordsAux, if_pos hw, if_pos he]
              exact ih m []
            · simp only [wordsAux, if_pos hw, if_neg he, List.length_cons]
              have h1 := ih m ([] : List Char)
              omega
          · simp only [wordsAux, if_neg hw]
            exact ih m (c :: acc)

theorem wordsAux_nonws_le_one (l : List Char) (hl : ∀ c ∈ l, c.isWhitespace = false) :
    ∀ acc : List Char, (wordsAux acc l).length ≤ 1 := by
  induction l with
  | nil => intro acc; by_cases he : acc.isEmpty <;> simp [wordsAux, he]
  | cons c cs ih =>
      intro acc
      have hc : c.isWhitespace = false := hl c (by simp)
      simp only [wordsAux, hc, Bool.false_eq_true, if_false]
      exact ih (fun d hd => hl d (by simp [hd])) (c :: acc)

theorem nWords_joinSp_le (ws : List (List Char))
    (h : ∀ w ∈ ws, ∀ c ∈ w, c.isWhitespace = false) :
    nWords (joinSp ws) ≤ ws.length := by
  induction ws with
  | nil => simp [joinSp, nWords, splitWs, wordsAux]
  | cons w rest ih =>
      match rest with
      | [] =>
          have := wordsAux_nonws_le_one w (h w (by simp)) []
          simpa [joinSp, nWords, splitWs] using this
      | x :: rest2 =>
          have h1 : nWords (joinSp (w :: x :: rest2)) ≤
              (wordsAux [] w).length + (wordsAux [] (' ' :: joinSp (x :: rest2))).length := by
            simpa [joinSp, nWords, splitWs] using
              wordsAux_append_le w (' ' :: joinSp (x :: rest2)) []
          have h2 : (wordsAux [] (' ' :: joinSp (x :: rest2))).length =
              nWords (joinSp (x :: rest2)) := by
            simp [wordsAux, nWords, splitWs]
          have h3 : (wordsAux [] w).length ≤ 1 :=
            wordsAux_nonws_le_one w (h w (by simp)) []
          have h4 : nWords (joinSp (x :: rest2)) ≤ (x :: rest2).length :=
            ih (fun v hv c hc => h v (by simp [hv]) c hc)
          simp only [List.length_cons] at *
          omega


theorem wordsAux_mem_nonws (l : List Char) :
    ∀ acc : List Char, (∀ c ∈ acc, c.isWhitespace = false) →
      ∀ w ∈ wordsAux acc l, ∀ c ∈ w, c.isWhitespace = false := by
  induction l with
  | nil =>
      intro acc hacc w hw
      by_cases he : acc.isEmpty
      · simp [wordsAux, he] at hw
      · simp only [wordsAux, if_neg he, List.mem_singleton] at hw
        subst hw
        intro c hc
        exact hacc c (List.mem_reverse.mp hc)
  | cons c cs ih =>
      intro acc hacc w hw
      by_cases hws : c.isWhitespace
      · by_cases he : acc.isEmpty
        · simp only [wordsAux, if_pos hws, if_pos he] at hw
          exact ih [] (by simp) w hw
        · simp only [wordsAux, if_pos hws, if_neg he, List.mem_cons] at hw
          rcases hw with rfl | hw
          · intro d hd
            exact hacc d (List.mem_reverse.mp hd)
          · exact ih [] (by simp) w hw
      · simp only [wordsAux, if_neg hws] at hw
        refine ih (c :: acc) ?_ w hw
        intro d hd
        rcases List.mem_cons.mp hd with rfl | hd
        · simpa using hws
        · exact hacc d hd

theorem splitWs_mem_nonws (t : List Char) :
    ∀ w ∈ splitWs t, ∀ c ∈ w, c.isWhitespace = false :=
  wordsAux_mem_nonws t [] (by simp)

theorem nWords_dots : nWords ('.' :: '.' :: '.' :: []) = 1 := rfl

theorem nWords_enforceLimit_le (t : List Char) : nWords (enforceLimit t) ≤ 60 := by
  unfold enforceLimit
  by_cases h : 60 < (splitWs t).length
  · have htrunc : nWords (joinSp ((splitWs t).take 55)) ≤ 55 := by
      have hgood : ∀ w ∈ (splitWs t).take 55, ∀ c ∈ w, c.isWhitespace = false :=
        fun w hw => splitWs_mem_nonws t w (List.mem_of_mem_take hw)
      have := nWords_joinSp_le ((splitWs t).take 55) hgood
      have hlen : ((splitWs t).take 55).length ≤ 55 := by
        simp [List.length_take]
      omega
    simp only [if_pos h]
    split_ifs with hcut
    · have := wordsAux_take_le (joinSp ((splitWs t).take 55))
        (((max (rfindC '.' (joinSp ((splitWs t).take 55)))
           (max (rfindC '?' (joinSp ((splitWs t).take 55)))
             (rfindC '!' (joinSp ((splitWs t).take 55))))) + 1).toNat) []
      have h2 : nWords ((joinSp ((splitWs t).take 55)).take
          (((max (rfindC '.' (joinSp ((splitWs t).take 55)))
             (max (rfindC '?' (joinSp ((splitWs t).take 55)))
               (rfindC '!' (joinSp ((splitWs t).take 55))))) + 1).toNat)) ≤
          nWords (joinSp ((splitWs t).take 55)) := this
      omega
    · have happ := wordsAux_append_le (joinSp ((splitWs t).take 55))
        ('.' :: '.' :: '.' :: []) []
      have h3 : nWords (joinSp ((splitWs t).take 55) ++ ('.' :: '.' :: '.' :: [])) ≤
          nWords (joinSp ((splitWs t).take 55)) + 1 := by
        have hd : (wordsAux [] ('.' :: '.' :: '.' :: [])).length = 1 := rfl
        simpa [nWords, splitWs, hd] using happ
      omega
  · simp only [if_neg h]
    unfold nWords at *
    omega

theorem enforceLimit_small (t : List Char) (h : nWords t ≤ 60) :
    enforceLimit t = t := by
  unfold enforceLimit
  rw [if_neg]
  unfold nWords at h
  omega

theorem normalizeText_le (t : List Char) : nWords (normalizeText t) ≤ 60 := by
  unfold normalizeText
  split_ifs with he
  · have : t = [] := by simpa using he
    subst this
    simp [nWords, splitWs, wordsAux]
  · exact nWords_enforceLimit_le t

theorem normalizeText_idem (t : List Char) :
    normalizeText (normalizeText t) = normalizeText t := by
  by_cases he : t.isEmpty
  · simp [normalizeText, he]
  · have h1 : normalizeText t = enforceLimit t := by simp [normalizeText, he]
    rw [h1]
    by_cases h2 : (enforceLimit t).isEmpty
    · simp [normalizeText, h2]
    · simp [normalizeText, h2,
        enforceLimit_small (enforceLimit t) (nWords_enforceLimit_le t)]


/-- C7.  For every reply whose response_text is present, the normalized
response_text has at most 60 words; when the input has at most 60 words it
is returned unchanged, and when it has more the output is the first 55
words, cut at the last sentence-ending punctuation mark when that boundary
lies within the last 20% of the truncated text, else extended with an
ellipsis. -/
theorem c7_word_limit (r : Reply) (t : List Char) (h : r.response_text = some t) :
    ∃ u, (process_llm_response r).response_text = some u ∧
      nWords u ≤ 60 ∧
      (nWords t ≤ 60 → u = t) ∧
      (60 < nWords t →
        u = (let truncated := joinSp ((splitWs t).take 55)
             let best : Int := max (rfindC '.' truncated)
               (max (rfindC '?' truncated) (rfindC '!' truncated))
             if 4 * (truncated.length : Int) < 5 * best then
               truncated.take (best + 1).toNat
             else truncated ++ ('.' :: '.' :: '.' :: []))) := by
  refine ⟨normalizeText t, ?_, normalizeText_le t, ?_, ?_⟩
  · simp [process_llm_response, h]
  · intro hle
    by_cases he : t.isEmpty
    · simp [normalizeText, he]
    · simp [normalizeText, he, enforceLimit_small t hle]
  · intro hgt
    have he : t.isEmpty = false := by
      cases t
      · simp [nWords, splitWs, wordsAux] at hgt
      · rfl
    unfold nWords at hgt
    simp only [normalizeText, he, Bool.false_eq_true, if_false]
    unfold enforceLimit
    rw [if_pos hgt]

/-- Witness for C7, at a two-word response_text. -/
theorem c7_witness :
    ∃ u, (process_llm_response
        ⟨some "hello world".data, none, none, none, none, none, none⟩).response_text
          = some u ∧
      nWords u ≤ 60 ∧
      (nWords "hello world".data ≤ 60 → u = "hello world".data) ∧
      (60 < nWords "hello world".data →
        u = (let truncated := joinSp ((splitWs "hello world".data).take 55)
             let best : Int := max (rfindC '.' truncated)
               (max (rfindC '?' truncated) (rfindC '!' truncated))
             if 4 * (truncated.length : Int) < 5 * best then
               truncated.take (best + 1).toNat
             else truncated ++ ('.' :: '.' :: '.' :: []))) :=
  c7_word_limit ⟨some "hello world".data, none, none, none, none, none, none⟩
    "hello world".data rfl

/-- C8.  The Response Normalizer is idempotent: normalizing any reply a
second time yields the same object, so in particular every
already-normalized reply is a fixed point. -/
theorem c8_normalize_idempotent (r : Reply) :
    process_llm_response (process_llm_response r) = process_llm_response r := by
  have hclamp : ∀ x : ℚ, max 0.1 (min 0.9 (max 0.1 (min 0.9 x))) = max 0.1 (min 0.9 x) := by
    intro x
    have h1 : max 0.1 (min 0.9 x) ≤ (0.9 : ℚ) := max_le (by norm_num) (min_le_left _ _)
    rw [min_eq_right h1, ← max_assoc, max_self]
  have hdef : normalizeText default_response_text = default_response_text := by
    have h5 : nWords default_response_text ≤ 60 := by
      have : nWords default_response_text = 5 := rfl
      omega
    have hne : default_response_text.isEmpty = false := rfl
    simp [normalizeText, hne, enforceLimit_small _ h5]
  cases hr : r.response_text with
  | none => simp [process_llm_response, hr, hclamp, hdef]
  | some t => simp [process_llm_response, hr, hclamp, normalizeText_idem t]


/-- Helper for C5: with 5 recorded taken-initiatives of which exactly 4
succeeded, the 5th call computes success rate 0.8 and, since the
comparison is strict, leaves the threshold unchanged. -/
theorem c5_partA (r1 r2 r3 r4 r5 : ℚ)
    (h : List.countP (fun x => decide ((0.6:ℚ) < x)) [r1, r2, r3, r4, r5] = 4) :
    success_rate (learnSeq BehavioralEngine.init
        [(true, r1), (true, r2), (true, r3), (true, r4), (true, r5)]).initiative_history
      = 0.8 ∧
    (learnSeq BehavioralEngine.init
        [(true, r1), (true, r2), (true, r3), (true, r4), (true, r5)]).behavioral_params.initiative_threshold
      = (learnSeq BehavioralEngine.init
        [(true, r1), (true, r2), (true, r3), (true, r4)]).behavioral_params.initiative_threshold := by
  have hh : (learnSeq BehavioralEngine.init
      [(true, r1), (true, r2), (true, r3), (true, r4), (true, r5)]).initiative_history
      = [mkInitiativeRecord true r1, mkInitiativeRecord true r2, mkInitiativeRecord true r3,
         mkInitiativeRecord true r4, mkInitiativeRecord true r5] := by
    simp [learnSeq, learn_from_outcome, BehavioralEngine.init]
  have hh4 : (learnSeq BehavioralEngine.init
      [(true, r1), (true, r2), (true, r3), (true, r4)]).initiative_history
      = [mkInitiativeRecord true r1, mkInitiativeRecord true r2, mkInitiativeRecord true r3,
         mkInitiativeRecord true r4] := by
    simp [learnSeq, learn_from_outcome, BehavioralEngine.init]
  have hcount : List.countP (fun x => x.success)
      [mkInitiativeRecord true r1, mkInitiativeRecord true r2, mkInitiativeRecord true r3,
       mkInitiativeRecord true r4, mkInitiativeRecord true r5] = 4 := by
    simpa [mkInitiativeRecord, List.countP_cons] using h
  have hrt : recent_taken
      [mkInitiativeRecord true r1, mkInitiativeRecord true r2, mkInitiativeRecord true r3,
       mkInitiativeRecord true r4, mkInitiativeRecord true r5]
      = [mkInitiativeRecord true r1, mkInitiativeRecord true r2, mkInitiativeRecord true r3,
         mkInitiativeRecord true r4, mkInitiativeRecord true r5] := by
    simp [recent_taken, lastN, mkInitiativeRecord, List.filter]
  have hrate : success_rate
      [mkInitiativeRecord true r1, mkInitiativeRecord true r2, mkInitiativeRecord true r3,
       mkInitiativeRecord true r4, mkInitiativeRecord true r5] = 0.8 := by
    unfold success_rate
    rw [hrt, ← List.countP_eq_length_filter, hcount]
    norm_num
  constructor
  · rw [hh]
    exact hrate
  · have h5 : learnSeq BehavioralEngine.init
        [(true, r1), (true, r2), (true, r3), (true, r4), (true, r5)]
        = learn_from_outcome (learnSeq BehavioralEngine.init
            [(true, r1), (true, r2), (true, r3), (true, r4)]) true r5 := by
      simp [learnSeq]
    rw [h5]
    unfold learn_from_outcome
    dsimp only
    rw [hh4]
    have hlen : ¬ (20 < ([mkInitiativeRecord true r1, mkInitiativeRecord true r2,
        mkInitiativeRecord true r3, mkInitiativeRecord true r4]
          ++ [mkInitiativeRecord true r5]).length) := by simp
    rw [if_neg hlen]
    have hadapt : adapt_params
        ([mkInitiativeRecord true r1, mkInitiativeRecord true r2, mkInitiativeRecord true r3,
          mkInitiativeRecord true r4] ++ [mkInitiativeRecord true r5])
        (learnSeq BehavioralEngine.init
          [(true, r1), (true, r2), (true, r3), (true, r4)]).behavioral_params
        = (learnSeq BehavioralEngine.init
          [(true, r1), (true, r2), (true, r3), (true, r4)]).behavioral_params := by
      unfold adapt_params
      rw [if_pos (by simp)]
      have hne : (recent_taken
          ([mkInitiativeRecord true r1, mkInitiativeRecord true r2, mkInitiativeRecord true r3,
            mkInitiativeRecord true r4] ++ [mkInitiativeRecord true r5])).length ≠ 0 := by
        simp only [List.cons_append, List.nil_append]
        rw [hrt]
        simp
      rw [if_pos hne]
      have hr8 : success_rate
          ([mkInitiativeRecord true r1, mkInitiativeRecord true r2, mkInitiativeRecord true r3,
            mkInitiativeRecord true r4] ++ [mkInitiativeRecord true r5]) = 0.8 := by
        simp only [List.cons_append, List.nil_append]
        exact hrate
      rw [hr8]
      norm_num
    rw [hadapt]


/-- Helper for C5: with 5 recorded taken-initiatives all successful, the
5th call computes success rate 1.0 and raises the threshold by 0.05 under
the 0.6 cap. -/
theorem c5_partB (r1 r2 r3 r4 r5 : ℚ)
    (h : (0.6:ℚ) < r1 ∧ (0.6:ℚ) < r2 ∧ (0.6:ℚ) < r3 ∧ (0.6:ℚ) < r4 ∧ (0.6:ℚ) < r5) :
    success_rate (learnSeq BehavioralEngine.init
        [(true, r1), (true, r2), (true, r3), (true, r4), (true, r5)]).initiative_history
      = 1 ∧
    (learnSeq BehavioralEngine.init
        [(true, r1), (true, r2), (true, r3), (true, r4), (true, r5)]).behavioral_params.initiative_threshold
      = min 0.6 ((learnSeq BehavioralEngine.init
          [(true, r1), (true, r2), (true, r3), (true, r4)]).behavioral_params.initiative_threshold + 0.05) ∧
    (learnSeq BehavioralEngine.init
        [(true, r1), (true, r2), (true, r3), (true, r4), (true, r5)]).behavioral_params.initiative_threshold
      = (learnSeq BehavioralEngine.init
          [(true, r1), (true, r2), (true, r3), (true, r4)]).behavioral_params.initiative_threshold + 0.05 := by
  obtain ⟨h1, h2, h3, h4, h5s⟩ := h
  have hh : (learnSeq BehavioralEngine.init
      [(true, r1), (true, r2), (true, r3), (true, r4), (true, r5)]).initiative_history
      = [mkInitiativeRecord true r1, mkInitiativeRecord true r2, mkInitiativeRecord true r3,
         mkInitiativeRecord true r4, mkInitiativeRecord true r5] := by
    simp [learnSeq, learn_from_outcome, BehavioralEngine.init]
  have hh4 : (learnSeq BehavioralEngine.init
      [(true, r1), (true, r2), (true, r3), (true, r4)]).initiative_history
      = [mkInitiativeRecord true r1, mkInitiativeRecord true r2, mkInitiativeRecord true r3,
         mkInitiativeRecord true r4] := by
    simp [learnSeq, learn_from_outcome, BehavioralEngine.init]
  have hrt : recent_taken
      [mkInitiativeRecord true r1, mkInitiativeRecord true r2, mkInitiativeRecord true r3,
       mkInitiativeRecord true r4, mkInitiativeRecord true r5]
      = [mkInitiativeRecord true r1, mkInitiativeRecord true r2, mkInitiativeRecord true r3,
         mkInitiativeRecord true r4, mkInitiativeRecord true r5] := by
    simp [recent_taken, lastN, mkInitiativeRecord, List.filter]
  have hcount : List.countP (fun x => x.success)
      [mkInitiativeRecord true r1, mkInitiativeRecord true r2, mkInitiativeRecord true r3,
       mkInitiativeRecord true r4, mkInitiativeRecord true r5] = 5 := by
    simp [mkInitiativeRecord, List.countP_cons, h1, h2, h3, h4, h5s]
  have hrate : success_rate
      [mkInitiativeRecord true r1, mkInitiativeRecord true r2, mkInitiativeRecord true r3,
       mkInitiativeRecord true r4, mkInitiativeRecord true r5] = 1 := by
    unfold success_rate
    rw [hrt, ← List.countP_eq_length_filter, hcount]
    norm_num
  have hh3 : (learnSeq BehavioralEngine.init
      [(true, r1), (true, r2), (true, r3)]).initiative_history
      = [mkInitiativeRecord true r1, mkInitiativeRecord true r2, mkInitiativeRecord true r3] := by
    simp [learnSeq, learn_from_outcome, BehavioralEngine.init]
  have ht3 : (learnSeq BehavioralEngine.init
      [(true, r1), (true, r2), (true, r3)]).behavioral_params
      = BehavioralEngine.init.behavioral_params := by
    simp [learnSeq, learn_from_outcome, BehavioralEngine.init, adapt_params]
  have hrt4 : recent_taken
      [mkInitiativeRecord true r1, mkInitiativeRecord true r2, mkInitiativeRecord true r3,
       mkInitiativeRecord true r4]
      = [mkInitiativeRecord true r1, mkInitiativeRecord true r2, mkInitiativeRecord true r3,
         mkInitiativeRecord true r4] := by
    simp [recent_taken, lastN, mkInitiativeRecord, List.filter]
  have hcount4 : List.countP (fun x => x.success)
      [mkInitiativeRecord true r1, mkInitiativeRecord true r2, mkInitiativeRecord true r3,
       mkInitiativeRecord true r4] = 4 := by
    simp [mkInitiativeRecord, List.countP_cons, h1, h2, h3, h4]
  have hrate4 : success_rate
      [mkInitiativeRecord true r1, mkInitiativeRecord true r2, mkInitiativeRecord true r3,
       mkInitiativeRecord true r4] = 1 := by
    unfold success_rate
    rw [hrt4, ← List.countP_eq_length_filter, hcount4]
    norm_num
  have ht4 : (learnSeq BehavioralEngine.init
      [(true, r1), (true, r2), (true, r3), (true, r4)]).behavioral_params.initiative_threshold
      = 0.4 := by
    have h4step : learnSeq BehavioralEngine.init
        [(true, r1), (true, r2), (true, r3), (true, r4)]
        = learn_from_outcome (learnSeq BehavioralEngine.init
            [(true, r1), (true, r2), (true, r3)]) true r4 := by
      simp [learnSeq]
    rw [h4step]
    unfold learn_from_outcome
    dsimp only
    rw [hh3]
    rw [if_neg (by simp : ¬ (20 < ([mkInitiativeRecord true r1, mkInitiativeRecord true r2,
        mkInitiativeRecord true r3] ++ [mkInitiativeRecord true r4]).length))]
    unfold adapt_params
    rw [if_pos (by simp)]
    have hne4 : (recent_taken
        ([mkInitiativeRecord true r1, mkInitiativeRecord true r2, mkInitiativeRecord true r3]
          ++ [mkInitiativeRecord true r4])).length ≠ 0 := by
      simp only [List.cons_append, List.nil_append]
      rw [hrt4]
      simp
    rw [if_pos hne4]
    have hr4a : success_rate
        ([mkInitiativeRecord true r1, mkInitiativeRecord true r2, mkInitiativeRecord true r3]
          ++ [mkInitiativeRecord true r4]) = 1 := by
      simp only [List.cons_append, List.nil_append]
      exact hrate4
    rw [hr4a]
    rw [if_pos (by norm_num)]
    dsimp only
    rw [ht3]
    have hinit : BehavioralEngine.init.behavioral_params.initiative_threshold = 0.35 := rfl
    rw [hinit, min_eq_right (by norm_num)]
    norm_num
  have h5 : learnSeq BehavioralEngine.init
      [(true, r1), (true, r2), (true, r3), (true, r4), (true, r5)]
      = learn_from_outcome (learnSeq BehavioralEngine.init
          [(true, r1), (true, r2), (true, r3), (true, r4)]) true r5 := by
    simp [learnSeq]
  have ht5 : (learnSeq BehavioralEngine.init
      [(true, r1), (true, r2), (true, r3), (true, r4), (true, r5)]).behavioral_params.initiative_threshold
      = 0.45 := by
    rw [h5]
    unfold learn_from_outcome
    dsimp only
    rw [hh4]
    have hlen : ¬ (20 < ([mkInitiativeRecord true r1, mkInitiativeRecord true r2,
        mkInitiativeRecord true r3, mkInitiativeRecord true r4]
          ++ [mkInitiativeRecord true r5]).length) := by simp
    rw [if_neg hlen]
    unfold adapt_params
    rw [if_pos (by simp)]
    have hne : (recent_taken
        ([mkInitiativeRecord true r1, mkInitiativeRecord true r2, mkInitiativeRecord true r3,
          mkInitiativeRecord true r4] ++ [mkInitiativeRecord true r5])).length ≠ 0 := by
      simp only [List.cons_append, List.nil_append]
      rw [hrt]
      simp
    rw [if_pos hne]
    have hr1 : success_rate
        ([mkInitiativeRecord true r1, mkInitiativeRecord true r2, mkInitiativeRecord true r3,
          mkInitiativeRecord true r4] ++ [mkInitiativeRecord true r5]) = 1 := by
      simp only [List.cons_append, List.nil_append]
      exact hrate
    rw [hr1]
    rw [if_pos (by norm_num)]
    dsimp only
    rw [ht4]
    rw [min_eq_right (by norm_num)]
    norm_num
  refine ⟨by rw [hh]; exact hrate, ?_, ?_⟩
  · rw [ht5, ht4, min_eq_right (by norm_num)]
    norm_num
  · rw [ht5, ht4]
    norm_num

/-- C5.  Over 5 `learn_from_outcome` calls with initiative taken each time:
when exactly 4 of the 5 engagement results exceed 0.6 the 5th call
computes a success rate of exactly 0.8 over the last 5 and leaves
initiative_threshold unchanged (the comparison is strict > 0.8); when all
5 exceed 0.6 the rate is 1.0 and the 5th call raises initiative_threshold
by 0.05, applied under the 0.6 cap. -/
theorem c5_success_rate_boundary_and_cap :
    (∀ r1 r2 r3 r4 r5 : ℚ,
      List.countP (fun x => decide ((0.6:ℚ) < x)) [r1, r2, r3, r4, r5] = 4 →
      success_rate (learnSeq BehavioralEngine.init
          [(true, r1), (true, r2), (true, r3), (true, r4), (true, r5)]).initiative_history
        = 0.8 ∧
      (learnSeq BehavioralEngine.init
          [(true, r1), (true, r2), (true, r3), (true, r4), (true, r5)]).behavioral_params.initiative_threshold
        = (learnSeq BehavioralEngine.init
          [(true, r1), (true, r2), (true, r3), (true, r4)]).behavioral_params.initiative_threshold) ∧
    (∀ r1 r2 r3 r4 r5 : ℚ,
      (0.6:ℚ) < r1 ∧ (0.6:ℚ) < r2 ∧ (0.6:ℚ) < r3 ∧ (0.6:ℚ) < r4 ∧ (0.6:ℚ) < r5 →
      success_rate (learnSeq BehavioralEngine.init
          [(true, r1), (true, r2), (true, r3), (true, r4), (true, r5)]).initiative_history
        = 1 ∧
      (learnSeq BehavioralEngine.init
          [(true, r1), (true, r2), (true, r3), (true, r4), (true, r5)]).behavioral_params.initiative_threshold
        = min 0.6 ((learnSeq BehavioralEngine.init
            [(true, r1), (true, r2), (true, r3), (true, r4)]).behavioral_params.initiative_threshold + 0.05) ∧
      (learnSeq BehavioralEngine.init
          [(true, r1), (true, r2), (true, r3), (true, r4), (true, r5)]).behavioral_params.initiative_threshold
        = (learnSeq BehavioralEngine.init
            [(true, r1), (true, r2), (true, r3), (true, r4)]).behavioral_params.initiative_threshold + 0.05) :=
  ⟨c5_partA, c5_partB⟩

/-- Witness for C5, at the concrete outcome sequences 0.5,0.7,0.7,0.7,0.7
(four successes) and 0.7,0.7,0.7,0.7,0.7 (five successes). -/
theorem c5_witness :
    (success_rate (learnSeq BehavioralEngine.init
        [(true, (0.5:ℚ)), (true, 0.7), (true, 0.7), (true, 0.7), (true, 0.7)]).initiative_history
      = 0.8 ∧
    (learnSeq BehavioralEngine.init
        [(true, (0.5:ℚ)), (true, 0.7), (true, 0.7), (true, 0.7), (true, 0.7)]).behavioral_params.initiative_threshold
      = (learnSeq BehavioralEngine.init
        [(true, (0.5:ℚ)), (true, 0.7), (true, 0.7), (true, 0.7)]).behavioral_params.initiative_threshold) ∧
    (success_rate (learnSeq BehavioralEngine.init
        [(true, (0.7:ℚ)), (true, 0.7), (true, 0.7), (true, 0.7), (true, 0.7)]).initiative_history
      = 1 ∧
    (learnSeq BehavioralEngine.init
        [(true, (0.7:ℚ)), (true, 0.7), (true, 0.7), (true, 0.7), (true, 0.7)]).behavioral_params.initiative_threshold
      = min 0.6 ((learnSeq BehavioralEngine.init
          [(true, (0.7:ℚ)), (true, 0.7), (true, 0.7), (true, 0.7)]).behavioral_params.initiative_threshold + 0.05) ∧
    (learnSeq BehavioralEngine.init
        [(true, (0.7:ℚ)), (true, 0.7), (true, 0.7), (true, 0.7), (true, 0.7)]).behavioral_params.initiative_threshold
      = (learnSeq BehavioralEngine.init
          [(true, (0.7:ℚ)), (true, 0.7), (true, 0.7), (true, 0.7)]).behavioral_params.initiative_threshold + 0.05) :=
  ⟨c5_success_rate_boundary_and_cap.1 0.5 0.7 0.7 0.7 0.7
      (by norm_num [List.countP_cons, List.countP_nil, decide_eq_true_eq]),
   c5_success_rate_boundary_and_cap.2 0.7 0.7 0.7 0.7 0.7 (by norm_num)⟩

end MoodTuner
